import Mathlib

/-!
Shallow embedding of the browser-automation verification scripts in
`jules-scratch/verification/` (get_page_errors.py, verify_asset_manager.py,
verify_changes.py, verify_export_modal.py, verify_feature.py,
verify_share_button_present.py, verify_share_feature.py, verify_share_flow.py,
verify_typing_animation.py).

Each Python script is a straight-line sequence of Playwright calls, optionally
wrapped in a `try: ... except Exception: ... finally: ...` block.  We embed a
script as the ordered list of primitive operations it performs, together with
its exception-handling shape, and give it a semantics parameterised by which
operation (if any) raises.  Playwright failures (timeouts, strict-mode
violations, assertion failures) surface as Python exceptions, so "the
operation at index k raises" abstracts every failure the environment can
produce at that operation.
-/

/-- A declarative element reference, as the scripts construct them:
CSS selector strings, `get_by_role(role, name=...)`, `get_by_label`,
`get_by_text`, and chained locators such as
`page.locator("ul").get_by_text("README.md")`.
Quote characters inside CSS attribute selectors are normalised to double
quotes (CSS treats the two quoting styles identically). -/
inductive Sel where
  | css (s : String)
  | role (r : String) (accName : String)
  | label (t : String)
  | text (t : String)
  | chain (base : Sel) (rest : Sel)
deriving DecidableEq, Repr

/-- One primitive operation performed by a script, in source order.
Page-level selector calls (`page.fill`, `page.click`, `page.wait_for_selector`)
are kept distinct from Locator-object calls (`locator.fill`, `locator.click`,
`locator.wait_for`, `expect(locator)...`) because Playwright gives them
different multiple-match semantics. -/
inductive Op where
  | launch
  | newContext
  | newPage
  | onPageError
  | goto (url : String) (timeoutMs : Option Nat)
  | gotoOpt (url : Option String)
  | waitForLoadState (state : String)
  | waitForTimeout (ms : Nat)
  | sleepMs (ms : Nat)
  | waitForSelector (sel : Sel) (timeoutMs : Option Nat)
  | locWaitFor (sel : Sel) (state : Option String) (timeoutMs : Option Nat)
  | fillSel (sel : Sel) (value : String)
  | locFill (sel : Sel) (value : String)
  | clickSel (sel : Sel)
  | locClick (sel : Sel)
  | setInputFiles (sel : Sel) (file : String)
  | expectVisible (sel : Sel) (timeoutMs : Option Nat)
  | expectNotVisible (sel : Sel)
  | waitForUrl (pat : String) (timeoutMs : Option Nat)
  | getAttr (sel : Sel) (attr : String)
  | screenshot (path : String)
  | printErr
  | close
deriving DecidableEq, Repr

/-- The control-flow shape of one script: session acquisition (`pre`, the
operations before any `try`), the scripted steps (`body`; the `try` body when
`catches` is set), the `except Exception` branch (`onException`), the
`finally` branch (`finallyOps`), and the operations run after the body only
when no exception occurred (`post`, e.g. a trailing `browser.close()` in a
script with no handler).  `name` is the script file's base name, which is the
scenario's name. -/
structure Script where
  name : String
  pre : List Op
  body : List Op
  catches : Bool
  onException : List Op
  finallyOps : List Op
  post : List Op
deriving DecidableEq, Repr

/-- How a run ended: all operations completed; an operation of `pre` raised
(session acquisition failed, nothing else ran); or the body operation at the
given index raised, `escaped` recording whether the exception propagated out
of the script (no handler) or was swallowed by its `except` branch. -/
inductive RunStatus where
  | completed
  | abortedDuringAcquisition (k : Nat)
  | aborted (k : Nat) (escaped : Bool)
deriving DecidableEq, Repr

/-- The observable outcome of one script run: the operations that actually
completed, split into acquisition / body / trailing (handler, `finally`,
post-body) parts, plus the run status. -/
structure Outcome where
  preTrace : List Op
  bodyTrace : List Op
  tailTrace : List Op
  status : RunStatus
deriving DecidableEq, Repr

/-- All operations the run actually performed, in order. -/
def Outcome.trace (o : Outcome) : List Op :=
  o.preTrace ++ (o.bodyTrace ++ o.tailTrace)

/-- Whether an exception propagated out of the script uncaught. -/
def Outcome.escaped (o : Outcome) : Bool :=
  match o.status with
  | .completed => false
  | .abortedDuringAcquisition _ => true
  | .aborted _ e => e

/-- Execute a script.  `failAt` abstracts the environment: `none` means every
operation succeeds; `some k` means the k-th operation of `pre ++ body` raises
(a timeout, strict-mode violation, failed assertion, ...) and no later body
operation runs.  Python semantics of the scripts' `try` blocks:
* a raise in `pre` happens before any handler is installed and always escapes;
* a raise in `body` runs `onException ++ finallyOps` when the script catches,
  and escapes (running nothing further) when it does not;
* with no raise, `finallyOps ++ post` run after the body.
Handler and `finally` operations are assumed not to raise (in the sources they
are `print`, `screenshot`, `browser.close()`). An index past the end of
`pre ++ body` means no operation raises. -/
def runScript (s : Script) (failAt : Option Nat) : Outcome :=
  match failAt with
  | none =>
      { preTrace := s.pre, bodyTrace := s.body,
        tailTrace := s.finallyOps ++ s.post, status := .completed }
  | some k =>
      if k < s.pre.length then
        { preTrace := s.pre.take k, bodyTrace := [], tailTrace := [],
          status := .abortedDuringAcquisition k }
      else if k - s.pre.length < s.body.length then
        if s.catches then
          { preTrace := s.pre, bodyTrace := s.body.take (k - s.pre.length),
            tailTrace := s.onException ++ s.finallyOps,
            status := .aborted (k - s.pre.length) false }
        else
          { preTrace := s.pre, bodyTrace := s.body.take (k - s.pre.length),
            tailTrace := [], status := .aborted (k - s.pre.length) true }
      else
        { preTrace := s.pre, bodyTrace := s.body,
          tailTrace := s.finallyOps ++ s.post, status := .completed }

/-- Operations that can raise one of the spec's taxonomy failures
(NotFound / AmbiguousMatch / NotInteractable / AssertionFailed / Timeout):
navigation, waits, element actions and assertions.  Session acquisition
(`launch`, `newContext`, `newPage`) is infrastructure; `screenshot`, `print`,
sleeps and `close` are outside the taxonomy. -/
def isTaxonomyOp : Op → Bool
  | .goto _ _ => true
  | .gotoOpt _ => true
  | .waitForLoadState _ => true
  | .waitForSelector _ _ => true
  | .locWaitFor _ _ _ => true
  | .fillSel _ _ => true
  | .locFill _ _ => true
  | .clickSel _ => true
  | .locClick _ => true
  | .setInputFiles _ _ => true
  | .expectVisible _ _ => true
  | .expectNotVisible _ => true
  | .waitForUrl _ _ => true
  | .getAttr _ _ => true
  | _ => false

/-- Explicit condition-bounded waits on a locator or readiness predicate. -/
def isWaitOp : Op → Bool
  | .waitForSelector _ _ => true
  | .locWaitFor _ _ _ => true
  | .waitForUrl _ _ => true
  | _ => false

/-- Unconditioned fixed-duration delays: `time.sleep(s)` and
`page.wait_for_timeout(ms)` — a fixed delay, not a condition-bounded wait. -/
def isFixedDelay : Op → Bool
  | .sleepMs _ => true
  | .waitForTimeout _ => true
  | _ => false

/-- The selector an operation resolves against the live page, when it has one. -/
def selOf : Op → Option Sel
  | .waitForSelector sel _ => some sel
  | .locWaitFor sel _ _ => some sel
  | .fillSel sel _ => some sel
  | .locFill sel _ => some sel
  | .clickSel sel => some sel
  | .locClick sel => some sel
  | .setInputFiles sel _ => some sel
  | .expectVisible sel _ => some sel
  | .expectNotVisible sel => some sel
  | .getAttr sel _ => some sel
  | _ => none

/-- The artifact path of a screenshot operation, if the operation is one. -/
def shotPath : Op → Option String
  | .screenshot p => some p
  | _ => none

/-- Whether an operation is a screenshot capture. -/
def isShot : Op → Bool
  | .screenshot _ => true
  | _ => false

/-- The screenshot artifact paths recorded by a run, in capture order. -/
def capturePaths (o : Outcome) : List String :=
  o.trace.filterMap shotPath

/-- Whether the run performed at least one screenshot capture. -/
def hasScreenshot (o : Outcome) : Bool :=
  o.trace.any isShot

/-- How many times the run released the browser session (`browser.close()`). -/
def closeCount (o : Outcome) : Nat :=
  o.trace.count .close

/-- `failAt` describes a failure that happens, if at all, only after session
acquisition succeeded (i.e. not inside `pre`). -/
def acquiredIn (s : Script) (failAt : Option Nat) : Bool :=
  match failAt with
  | none => true
  | some k => s.pre.length ≤ k

/-- Every operation a script could ever perform, across all paths. -/
def fullOps (s : Script) : List Op :=
  s.pre ++ (s.body ++ (s.onException ++ (s.finallyOps ++ s.post)))

/-- The ordered sequence of selectors a script's body resolves against the
live page, one entry per locator-bearing step. -/
def locUses (s : Script) : List Sel :=
  s.body.filterMap selOf

/-! ## The nine scripts, embedded operation by operation from the sources. -/

/-- get_page_errors.py: `main` launches a browser, `verify_frontend_changes`
registers a page-error listener, navigates, waits a fixed 2000 ms
(`page.wait_for_timeout(2000)`), screenshots; `main` then closes the browser.
No try/except anywhere. -/
def get_page_errors : Script where
  name := "get_page_errors"
  pre := [.launch, .newPage]
  body := [.onPageError,
           .goto "http://localhost:3000" none,
           .waitForTimeout 2000,
           .screenshot "jules-scratch/verification/verification.png"]
  catches := false
  onException := []
  finallyOps := []
  post := [.close]

/-- verify_asset_manager.py: launch and new_page, then a `try` body (goto,
wait for the file input, upload README.md, wait for the list and the file
name, screenshot), `except Exception as e: print(e)`,
`finally: browser.close()`. -/
def verify_asset_manager : Script where
  name := "verify_asset_manager"
  pre := [.launch, .newPage]
  body := [.goto "http://localhost:3000" none,
           .locWaitFor (.css "input[type=\"file\"]") none (some 5000),
           .setInputFiles (.css "input[type=\"file\"]") "README.md",
           .locWaitFor (.css "ul") none (some 5000),
           .locWaitFor (.chain (.css "ul") (.text "README.md")) none (some 5000),
           .screenshot "jules-scratch/verification/verification.png"]
  catches := true
  onException := [.printErr]
  finallyOps := [.close]
  post := []

/-- verify_changes.py: `main` launches and calls `verify_frontend_changes`
(goto, eleven `expect(...)` visibility assertions around one click,
screenshot), then closes.  No try/except: any failing assertion propagates
out of `main` and `browser.close()` is skipped. -/
def verify_changes : Script where
  name := "verify_changes"
  pre := [.launch, .newPage]
  body := [.goto "http://localhost:3000" none,
           .expectVisible (.label "Style Intensity") none,
           .expectVisible (.text "Conservative") none,
           .expectVisible (.text "Creative") none,
           .expectVisible (.label "Quality") none,
           .expectVisible (.role "button" "Fast") none,
           .expectVisible (.role "button" "Balanced") none,
           .expectVisible (.role "button" "High") none,
           .expectVisible (.role "button" "+ Add Style Reference") none,
           .expectNotVisible (.label "Style Reference Image"),
           .locClick (.role "button" "+ Add Style Reference"),
           .expectVisible (.label "Style Reference Image") none,
           .screenshot "jules-scratch/verification/verification.png"]
  catches := false
  onException := []
  finallyOps := []
  post := [.close]

/-- verify_export_modal.py: page-level selector calls throughout
(`page.wait_for_selector`, `page.fill`, `page.click`), a 60 s wait for the
animation canvas, a click on `button:has-text("Export")`, a wait for the
export modal, a screenshot, then `browser.close()`.  No try/except. -/
def verify_export_modal : Script where
  name := "verify_export_modal"
  pre := [.launch, .newPage]
  body := [.goto "http://localhost:3000" none,
           .waitForSelector (.css "textarea[aria-label=\"Animation prompt\"]") none,
           .fillSel (.css "textarea[aria-label=\"Animation prompt\"]") "A cat dancing in the rain",
           .waitForSelector (.css "[data-testid=\"bananimate-button\"]:not([disabled])") none,
           .clickSel (.css "[data-testid=\"bananimate-button\"]:not([disabled])"),
           .waitForSelector (.css "[data-testid=\"animation-canvas\"]") (some 60000),
           .clickSel (.css "button:has-text(\"Export\")"),
           .waitForSelector (.css "[data-testid=\"export-modal\"]") none,
           .screenshot "jules-scratch/verification/verification.png"]
  catches := false
  onException := []
  finallyOps := []
  post := [.close]

/-- verify_feature.py: launch, new_context, new_page, then a `try` body
(goto :3001, wait for the prompt textarea to be visible, click it, fill it,
screenshot), `except Exception as e:` printing the error and taking
`error.png`, `finally: browser.close()`. -/
def verify_feature : Script where
  name := "verify_feature"
  pre := [.launch, .newContext, .newPage]
  body := [.goto "http://localhost:3001" none,
           .locWaitFor (.css "textarea[aria-label=\"Animation prompt\"]")
             (some "visible") (some 30000),
           .locClick (.css "textarea[aria-label=\"Animation prompt\"]"),
           .locFill (.css "textarea[aria-label=\"Animation prompt\"]") "A cute cat sleeping",
           .screenshot "jules-scratch/verification/verification.png"]
  catches := true
  onException := [.printErr, .screenshot "jules-scratch/verification/error.png"]
  finallyOps := [.close]
  post := []

/-- verify_share_button_present.py: goto with a 120 s timeout, wait for
domcontentloaded, `time.sleep(2)`, wait for `#storyPrompt`, `time.sleep(1)`,
fill the prompt, click "Create Animation", wait for the animation canvas,
screenshot, close.  No try/except. -/
def verify_share_button_present : Script where
  name := "verify_share_button_present"
  pre := [.launch, .newContext, .newPage]
  body := [.goto "http://localhost:3000" (some 120000),
           .waitForLoadState "domcontentloaded",
           .sleepMs 2000,
           .waitForSelector (.css "#storyPrompt") (some 60000),
           .sleepMs 1000,
           .locFill (.css "#storyPrompt") "a cat dancing",
           .locClick (.role "button" "Create Animation"),
           .waitForSelector (.css "[data-testid=\"animation-canvas\"]") (some 120000),
           .screenshot "jules-scratch/verification/share_button_present.png"]
  catches := false
  onException := []
  finallyOps := []
  post := [.close]

/-- verify_share_feature.py: goto, `expect(#storyPrompt).to_be_visible`,
fill, click "Create Animation", wait for the canvas, expect and click the
Share button, wait for the share URL, two content assertions, screenshot,
close.  No try/except. -/
def verify_share_feature : Script where
  name := "verify_share_feature"
  pre := [.launch, .newContext, .newPage]
  body := [.goto "http://localhost:3000" (some 120000),
           .expectVisible (.css "#storyPrompt") (some 60000),
           .locFill (.css "#storyPrompt") "a robot dancing",
           .locClick (.role "button" "Create Animation"),
           .waitForSelector (.css "[data-testid=\"animation-canvas\"]") (some 120000),
           .expectVisible (.role "button" "Share") (some 60000),
           .locClick (.role "button" "Share"),
           .waitForUrl "**/share/**" (some 60000),
           .expectVisible (.role "heading" "Remix This Animation") none,
           .expectVisible (.text "a robot dancing") none,
           .screenshot "jules-scratch/verification/share_page.png"]
  catches := false
  onException := []
  finallyOps := []
  post := [.close]

/-- verify_share_flow.py lines 18-24: read the Share button's
`data-share-url` attribute and immediately navigate to it — there is no
presence check between `get_attribute` (which returns `None` when the
attribute is absent) and `page.goto(share_url)`. -/
def shareFlowTail (shareUrl : Option String) : List Op :=
  [.gotoOpt shareUrl,
   .waitForSelector (.css "[data-testid=\"animation-canvas\"]") (some 120000),
   .screenshot "jules-scratch/verification/share_page.png"]

/-- verify_share_flow.py: goto, wait for networkidle, wait for
`#storyPrompt`, `time.sleep(1)`, fill, click "Create Animation", wait for the
canvas, screenshot, then read `data-share-url` from the Share button and
navigate to whatever value came back (`shareUrl`), wait, screenshot, close.
No try/except.  The script is parameterised by the attribute value the page
returned, which flows unchecked into the navigation (see `shareFlowTail`). -/
def verify_share_flow (shareUrl : Option String) : Script where
  name := "verify_share_flow"
  pre := [.launch, .newContext, .newPage]
  body := [.goto "http://localhost:3000" (some 120000),
           .waitForLoadState "networkidle",
           .waitForSelector (.css "#storyPrompt") (some 60000),
           .sleepMs 1000,
           .locFill (.css "#storyPrompt") "a cat dancing",
           .locClick (.role "button" "Create Animation"),
           .waitForSelector (.css "[data-testid=\"animation-canvas\"]") (some 120000),
           .screenshot "jules-scratch/verification/animation_player.png",
           .getAttr (.css "button:has-text(\"Share\")") "data-share-url"]
          ++ shareFlowTail shareUrl
  catches := false
  onException := []
  finallyOps := []
  post := [.close]

/-- verify_typing_animation.py: goto, wait for networkidle, four screenshots
at distinct hard-coded paths around a fill and a blur click, close.
No try/except. -/
def verify_typing_animation : Script where
  name := "verify_typing_animation"
  pre := [.launch, .newPage]
  body := [.goto "http://localhost:3000" none,
           .waitForLoadState "networkidle",
           .screenshot "jules-scratch/verification/01-initial-load.png",
           .waitForSelector (.css "[data-testid=\"placeholder-text\"]") none,
           .screenshot "jules-scratch/verification/02-typing-animation.png",
           .locFill (.role "textbox" "Animation prompt") "A test prompt",
           .screenshot "jules-scratch/verification/03-prompt-filled.png",
           .locClick (.css "footer"),
           .screenshot "jules-scratch/verification/04-blurred.png"]
  catches := false
  onException := []
  finallyOps := []
  post := [.close]

/-- All nine scripts.  `shareUrl` is the `data-share-url` attribute value the
page handed verify_share_flow.py at run time. -/
def allScripts (shareUrl : Option String) : List Script :=
  [get_page_errors, verify_asset_manager, verify_changes, verify_export_modal,
   verify_feature, verify_share_button_present, verify_share_feature,
   verify_share_flow shareUrl, verify_typing_animation]

/-! ## Live-page resolution

A page snapshot maps selectors to the (ordered) ids of the elements matching
them.  A Playwright Locator object in the scripts is pure data — it stores its
selector only, never an element handle — so every action re-queries the page
it runs against.  Page-level selector calls and Locator-object calls differ on
multiple matches: the page-level API acts on the first match (its strict
option defaults to off), while Locator actions run in strict mode and raise a
strict-mode violation when more than one element matches. -/

/-- A snapshot of the live page: each selector paired with the ids of the
elements currently matching it (in DOM order); selectors not listed match
nothing. -/
abbrev PageState : Type := List (Sel × List Nat)

/-- Resolve a selector against a page snapshot at the moment of use. -/
def resolveAt (p : PageState) (sel : Sel) : List Nat :=
  (p.lookup sel).getD []

/-- What an element operation did: acted on one concrete element, found
nothing before its timeout expired, or raised a strict-mode violation. -/
inductive ActionResult where
  | acted (e : Nat)
  | notFoundOrTimeout
  | strictViolation
deriving DecidableEq, Repr

/-- Page-level selector actions (`page.fill`, `page.click`,
`page.wait_for_selector`, as used in verify_export_modal.py): non-strict,
they act on the first matching element even when several match. -/
def pageLevelAct (p : PageState) (sel : Sel) : ActionResult :=
  match resolveAt p sel with
  | [] => .notFoundOrTimeout
  | e :: _ => .acted e

/-- Locator-object actions (`locator.click`, `locator.fill`,
`locator.wait_for`, `locator.get_attribute`, `expect(locator)...`): strict
mode — exactly one match is acted on, more than one raises a strict-mode
violation (a Python exception) instead of acting. -/
def locatorAct (p : PageState) (sel : Sel) : ActionResult :=
  match resolveAt p sel with
  | [] => .notFoundOrTimeout
  | [e] => .acted e
  | _ :: _ :: _ => .strictViolation

/-- The resolutions a script's locator-bearing steps observe when the live
page evolves between steps: step i resolves its selector against `pages i`,
the page as it is at that moment. -/
def observedMatches (pages : Nat → PageState) (uses : List Sel) : List (List Nat) :=
  (List.range uses.length).map fun i => resolveAt (pages i) (uses.getD i (.css ""))

/-! ## Generic control-flow lemmas -/

theorem runScript_trace_sublist (s : Script) (failAt : Option Nat) :
    (runScript s failAt).trace.Sublist (fullOps s) := by
  unfold fullOps
  match failAt with
  | none =>
      show (s.pre ++ (s.body ++ (s.finallyOps ++ s.post))).Sublist _
      exact (List.Sublist.refl s.pre).append <|
        (List.Sublist.refl s.body).append <|
          List.sublist_append_of_sublist_right (List.Sublist.refl _)
  | some k =>
      simp only [runScript]
      split
      · show ((s.pre.take k) ++ ([] ++ [])).Sublist _
        simp only [List.nil_append, List.append_nil]
        exact (s.pre.take_sublist k).trans (s.pre.sublist_append_left _)
      · split
        · split
          · show (s.pre ++ (s.body.take _ ++ (s.onException ++ s.finallyOps))).Sublist _
            refine (List.Sublist.refl s.pre).append ?_
            refine (s.body.take_sublist _).append ?_
            exact (List.Sublist.refl s.onException).append
              (s.finallyOps.sublist_append_left s.post)
          · show (s.pre ++ (s.body.take _ ++ [])).Sublist _
            simp only [List.append_nil]
            refine (List.Sublist.refl s.pre).append ?_
            exact ((s.body.take_sublist _).trans (s.body.sublist_append_left _))
        · show (s.pre ++ (s.body ++ (s.finallyOps ++ s.post))).Sublist _
          exact (List.Sublist.refl s.pre).append <|
            (List.Sublist.refl s.body).append <|
              List.sublist_append_of_sublist_right (List.Sublist.refl _)

theorem capturePaths_nodup_of_fullOps (s : Script) (failAt : Option Nat)
    (h : ((fullOps s).filterMap shotPath).Nodup) :
    (capturePaths (runScript s failAt)).Nodup :=
  h.sublist ((runScript_trace_sublist s failAt).filterMap _)

theorem runScript_hasScreenshot (s : Script) (hs : s.catches = true)
    (p q : String) (hexc : Op.screenshot p ∈ s.onException)
    (hbody : Op.screenshot q ∈ s.body)
    (failAt : Option Nat) (hacq : acquiredIn s failAt = true) :
    hasScreenshot (runScript s failAt) = true := by
  have hany : ∀ (l : List Op) (r : String),
      Op.screenshot r ∈ l → l.any isShot = true := by
    intro l r hl
    exact List.any_eq_true.mpr ⟨_, hl, rfl⟩
  match failAt with
  | none =>
      simp only [hasScreenshot, runScript, Outcome.trace, List.any_append]
      rw [hany s.body q hbody]
      simp
  | some k =>
      have hk : s.pre.length ≤ k := by
        simpa [acquiredIn] using hacq
      simp only [hasScreenshot, runScript]
      rw [if_neg (Nat.not_lt.mpr hk), if_pos hs]
      split
      · simp only [Outcome.trace, List.any_append]
        rw [hany s.onException p hexc]
        simp
      · simp only [Outcome.trace, List.any_append]
        rw [hany s.body q hbody]
        simp

theorem runScript_escaped_false_of_catches (s : Script) (hs : s.catches = true)
    (failAt : Option Nat) (hacq : acquiredIn s failAt = true) :
    (runScript s failAt).escaped = false := by
  match failAt with
  | none => rfl
  | some k =>
      have hk : s.pre.length ≤ k := by
        simpa [acquiredIn] using hacq
      simp only [runScript]
      rw [if_neg (Nat.not_lt.mpr hk), if_pos hs]
      split
      · rfl
      · rfl

theorem runScript_closeCount (s : Script) (hs : s.catches = true)
    (hpre : Op.close ∉ s.pre) (hbody : Op.close ∉ s.body)
    (hexc : Op.close ∉ s.onException)
    (hfin : s.finallyOps.count Op.close = 1) (hpost : s.post = [])
    (failAt : Option Nat) (hacq : acquiredIn s failAt = true) :
    closeCount (runScript s failAt) = 1 := by
  have hcount : ∀ l : List Op, Op.close ∉ l → l.count Op.close = 0 := by
    intro l hl
    exact List.count_eq_zero.mpr hl
  have h0body := hcount s.body hbody
  have htake : ∀ j, (s.body.take j).count Op.close = 0 := by
    intro j
    have := (s.body.take_sublist j).count_le Op.close
    omega
  match failAt with
  | none =>
      simp only [closeCount, runScript, Outcome.trace, List.count_append, hpost,
        List.append_nil, hcount s.pre hpre, h0body, hfin]
  | some k =>
      have hk : s.pre.length ≤ k := by
        simpa [acquiredIn] using hacq
      simp only [closeCount, runScript]
      rw [if_neg (Nat.not_lt.mpr hk), if_pos hs]
      split
      · simp only [Outcome.trace, List.count_append, hcount s.pre hpre,
          htake, hcount s.onException hexc, hfin]
      · simp only [Outcome.trace, List.count_append, hpost, List.append_nil,
          hcount s.pre hpre, h0body, hfin]

theorem runScript_body_abort (s : Script) (j : Nat) (hj : j < s.body.length) :
    (runScript s (some (s.pre.length + j))).bodyTrace = s.body.take j ∧
      (runScript s (some (s.pre.length + j))).status = .aborted j (!s.catches) := by
  simp only [runScript]
  rw [if_neg (by omega)]
  have hsub : s.pre.length + j - s.pre.length = j := by omega
  rw [if_pos (by omega)]
  cases hc : s.catches <;> simp [hsub, hc]

/-! ## Claims -/

/-- C1, counterexample: the claim says every taxonomy failure is captured
inside the run and never escapes.  In verify_changes.py a failing visibility
assertion (operation index 3 of the run, the `expect(page.get_by_label("Style
Intensity")).to_be_visible()` call) is a taxonomy failure, yet the run lets it
escape uncaught: `main` has no handler. -/
theorem c1_taxonomy_failure_escapes :
    (verify_changes.pre ++ verify_changes.body)[3]? =
        some (Op.expectVisible (Sel.label "Style Intensity") none) ∧
      isTaxonomyOp (Op.expectVisible (Sel.label "Style Intensity") none) = true ∧
      (runScript verify_changes (some 3)).escaped = true := by
  decide

/-- C1, amended: only the two scripts with an `except Exception` handler
(verify_feature.py and verify_asset_manager.py) capture every failure raised
after session acquisition; in them no such failure escapes the run.  (In the
other seven scripts taxonomy failures escape uncaught, as the counterexample
shows.) -/
theorem c1_failures_captured_in_handler_scripts (failAt : Option Nat) :
    (acquiredIn verify_feature failAt = true →
        (runScript verify_feature failAt).escaped = false) ∧
      (acquiredIn verify_asset_manager failAt = true →
        (runScript verify_asset_manager failAt).escaped = false) :=
  ⟨runScript_escaped_false_of_catches verify_feature rfl failAt,
   runScript_escaped_false_of_catches verify_asset_manager rfl failAt⟩

/-- C1, witness: a failure at operation index 4 (inside both scripts' bodies)
is captured and does not escape. -/
theorem c1_failures_captured_witness :
    acquiredIn verify_feature (some 4) = true ∧
      (runScript verify_feature (some 4)).escaped = false ∧
      acquiredIn verify_asset_manager (some 4) = true ∧
      (runScript verify_asset_manager (some 4)).escaped = false :=
  ⟨by decide, (c1_failures_captured_in_handler_scripts (some 4)).1 (by decide),
   by decide, (c1_failures_captured_in_handler_scripts (some 4)).2 (by decide)⟩

/-- C2, counterexample: the claim says the browser session is released on
every exit path.  In verify_changes.py a failure at operation index 3 (after
the session was acquired) makes the exception skip the trailing
`browser.close()`: the run performs zero releases. -/
theorem c2_session_leaked_on_failure :
    acquiredIn verify_changes (some 3) = true ∧
      closeCount (runScript verify_changes (some 3)) = 0 := by
  decide

/-- C2, amended: the guaranteed-release contract holds only in the two
scripts that put `browser.close()` in a `finally` block (verify_feature.py,
verify_asset_manager.py): there the session is released exactly once on every
exit path after acquisition, including paths where a step raises.  The other
seven scripts release only when no step raises. -/
theorem c2_close_exactly_once_in_handler_scripts (failAt : Option Nat) :
    (acquiredIn verify_feature failAt = true →
        closeCount (runScript verify_feature failAt) = 1) ∧
      (acquiredIn verify_asset_manager failAt = true →
        closeCount (runScript verify_asset_manager failAt) = 1) :=
  ⟨fun h => runScript_closeCount verify_feature rfl (by decide) (by decide)
      (by decide) (by decide) rfl failAt h,
   fun h => runScript_closeCount verify_asset_manager rfl (by decide) (by decide)
      (by decide) (by decide) rfl failAt h⟩

/-- C2, witness: with a failure at operation index 5, both handler scripts
release the session exactly once. -/
theorem c2_close_exactly_once_witness :
    acquiredIn verify_feature (some 5) = true ∧
      closeCount (runScript verify_feature (some 5)) = 1 ∧
      acquiredIn verify_asset_manager (some 5) = true ∧
      closeCount (runScript verify_asset_manager (some 5)) = 1 :=
  ⟨by decide, (c2_close_exactly_once_in_handler_scripts (some 5)).1 (by decide),
   by decide, (c2_close_exactly_once_in_handler_scripts (some 5)).2 (by decide)⟩

/-- C3, counterexample: the claim says every run, whatever its outcome,
performs a final screenshot before reporting.  In verify_export_modal.py a
timeout of the 60 s wait for `[data-testid="animation-canvas"]` (body step 5,
operation index 7 of the run) aborts the run with no screenshot ever taken:
the only capture comes after the export modal appears and there is no
failure-path capture. -/
theorem c3_no_capture_after_midrun_failure :
    acquiredIn verify_export_modal (some 7) = true ∧
      verify_export_modal.body[5]? =
        some (Op.waitForSelector (Sel.css "[data-testid=\"animation-canvas\"]")
          (some 60000)) ∧
      (runScript verify_export_modal (some 7)).status = .aborted 5 true ∧
      hasScreenshot (runScript verify_export_modal (some 7)) = false := by
  decide

/-- C3, amended: only verify_feature.py guarantees a screenshot on every run
that gets past session acquisition — `verification.png` on the success path
and the failure-triggered `error.png` from its `except` branch when any step
raises.  The other scripts skip evidence capture when a step fails before
their screenshot call. -/
theorem c3_final_capture_in_verify_feature (failAt : Option Nat)
    (hacq : acquiredIn verify_feature failAt = true) :
    hasScreenshot (runScript verify_feature failAt) = true :=
  runScript_hasScreenshot verify_feature rfl
    "jules-scratch/verification/error.png"
    "jules-scratch/verification/verification.png"
    (by decide) (by decide) failAt hacq

/-- C3, witness: a failure at operation index 4 (the body's fill step) still
produces a screenshot in verify_feature.py. -/
theorem c3_final_capture_witness :
    acquiredIn verify_feature (some 4) = true ∧
      hasScreenshot (runScript verify_feature (some 4)) = true :=
  ⟨by decide, c3_final_capture_in_verify_feature (some 4) (by decide)⟩

/-- The selector of the page-level `page.click('button:has-text("Export")')`
call at verify_export_modal.py line 23. -/
def exportButtonSel : Sel := .css "button:has-text(\"Export\")"

/-- A live page on which two elements (ids 3 and 7, in DOM order) match the
Export-button selector. -/
def twoExportButtons : PageState := [(exportButtonSel, [3, 7])]

/-- C4, counterexample: the claim says an action whose locator matches more
than one element yields AmbiguousMatch and never silently acts on the first
match.  verify_export_modal.py clicks `button:has-text("Export")` through the
page-level API, which is non-strict: on a page where two elements match, the
click silently acts on the first (id 3) and the run proceeds — no
AmbiguousMatch anywhere. -/
theorem c4_first_match_silently_clicked :
    Op.clickSel exportButtonSel ∈ verify_export_modal.body ∧
      (resolveAt twoExportButtons exportButtonSel).length = 2 ∧
      pageLevelAct twoExportButtons exportButtonSel = .acted 3 := by
  decide

/-- C4, amended: the Locator-object actions used by the scripts
(locator.click/fill/wait_for, expect, get_attribute) run in Playwright strict
mode and never act when their selector matches more than one element — they
raise a strict-mode violation (which then escapes uncaught except in the two
handler scripts, rather than being recorded as an AmbiguousMatch in any
RunResult).  The page-level selector calls used in verify_export_modal.py
keep the silent first-match behaviour, as the counterexample shows. -/
theorem c4_locator_never_acts_on_ambiguous (p : PageState) (sel : Sel)
    (h : 2 ≤ (resolveAt p sel).length) :
    locatorAct p sel = .strictViolation := by
  unfold locatorAct
  rcases hm : resolveAt p sel with _ | ⟨a, _ | ⟨b, tl⟩⟩
  · rw [hm] at h
    simp at h
  · rw [hm] at h
    simp at h
  · rfl

/-- C4, witness: on the page with two Export buttons, a strict Locator action
refuses to act. -/
theorem c4_locator_never_acts_witness :
    2 ≤ (resolveAt twoExportButtons exportButtonSel).length ∧
      locatorAct twoExportButtons exportButtonSel = .strictViolation :=
  ⟨by decide,
   c4_locator_never_acts_on_ambiguous twoExportButtons exportButtonSel (by decide)⟩

/-- C5, counterexample: the claim says the program never uses an
unconditioned fixed-duration sleep.  verify_share_button_present.py performs
`time.sleep(2)` (and `time.sleep(1)`), and get_page_errors.py performs
`page.wait_for_timeout(2000)` — fixed delays, not condition-bounded waits. -/
theorem c5_fixed_sleeps_present :
    Op.sleepMs 2000 ∈ verify_share_button_present.body ∧
      isFixedDelay (Op.sleepMs 2000) = true ∧
      Op.waitForTimeout 2000 ∈ get_page_errors.body ∧
      isFixedDelay (Op.waitForTimeout 2000) = true := by
  decide

/-- C5, amended: exactly three scripts (get_page_errors.py,
verify_share_button_present.py, verify_share_flow.py) use unconditioned
fixed-duration sleeps; in the other six scripts every wait is
condition-bounded (a selector/state wait with a timeout), with no fixed
delay anywhere on any path. -/
theorem c5_sleeps_only_in_three_scripts (shareUrl : Option String) :
    ((fullOps get_page_errors).any isFixedDelay = true) ∧
      ((fullOps verify_share_button_present).any isFixedDelay = true) ∧
      ((fullOps (verify_share_flow shareUrl)).any isFixedDelay = true) ∧
      ((fullOps verify_asset_manager).any isFixedDelay = false) ∧
      ((fullOps verify_changes).any isFixedDelay = false) ∧
      ((fullOps verify_export_modal).any isFixedDelay = false) ∧
      ((fullOps verify_feature).any isFixedDelay = false) ∧
      ((fullOps verify_share_feature).any isFixedDelay = false) ∧
      ((fullOps verify_typing_animation).any isFixedDelay = false) :=
  ⟨by decide, by decide, rfl, by decide, by decide, by decide, by decide,
   by decide, by decide⟩

/-- C6: in every script, a condition-bounded wait (wait_for_selector,
locator.wait_for, wait_for_url) that expires raises at that step: the run
performs exactly the body operations before the wait and aborts there
(escaping when the script has no handler), never proceeding to the step after
the expired wait. -/
theorem c6_expired_wait_halts_run (shareUrl : Option String) (s : Script)
    (hs : s ∈ allScripts shareUrl) (j : Nat) (op : Op)
    (hop : s.body[j]? = some op) (hw : isWaitOp op = true) :
    (runScript s (some (s.pre.length + j))).bodyTrace = s.body.take j ∧
      (runScript s (some (s.pre.length + j))).status =
        .aborted j (!s.catches) := by
  have hj : j < s.body.length := by
    rcases List.getElem?_eq_some_iff.mp hop with ⟨h, _⟩
    exact h
  exact runScript_body_abort s j hj

/-- C6, witness: the 60 s wait for the animation canvas in
verify_export_modal.py (body step 5) expires; the run stops there with the
first five body operations performed and the click on Export never runs. -/
theorem c6_expired_wait_witness :
    verify_export_modal ∈ allScripts none ∧
      verify_export_modal.body[5]? =
        some (Op.waitForSelector (Sel.css "[data-testid=\"animation-canvas\"]")
          (some 60000)) ∧
      isWaitOp (Op.waitForSelector (Sel.css "[data-testid=\"animation-canvas\"]")
        (some 60000)) = true ∧
      ((runScript verify_export_modal
            (some (verify_export_modal.pre.length + 5))).bodyTrace =
          verify_export_modal.body.take 5 ∧
        (runScript verify_export_modal
            (some (verify_export_modal.pre.length + 5))).status =
          .aborted 5 (!verify_export_modal.catches)) :=
  ⟨by decide, by decide, by decide,
   c6_expired_wait_halts_run none verify_export_modal (by decide) 5
     (Op.waitForSelector (Sel.css "[data-testid=\"animation-canvas\"]")
       (some 60000)) (by decide) (by decide)⟩

/-- C7: each locator-bearing step of every script resolves its selector
against the page as it is at that step's own moment: the observed resolution
at step i depends only on the page state at moment i, never on the page at
any earlier step — nothing is cached across steps, even when the same
locator object is used by several consecutive steps (as with `file_input` and
`page.locator("ul")` in verify_asset_manager.py: a Locator holds only its
selector, so `locUses` lists the same selector several times and each
occurrence re-queries the page). -/
theorem c7_resolution_at_moment_of_use (shareUrl : Option String) (s : Script)
    (hs : s ∈ allScripts shareUrl) (pages pagesB : Nat → PageState) (i : Nat)
    (hi : i < (locUses s).length) (hpage : pages i = pagesB i) :
    (observedMatches pages (locUses s)).getD i [] =
      (observedMatches pagesB (locUses s)).getD i [] := by
  have hget : ∀ ps : Nat → PageState,
      (observedMatches ps (locUses s)).getD i [] =
        resolveAt (ps i) ((locUses s).getD i (.css "")) := by
    intro ps
    unfold observedMatches
    rw [List.getD_eq_getElem?_getD, List.getElem?_map, List.getElem?_range hi]
    rfl
  rw [hget, hget, hpage]

/-- A page history in which `ul` matches element 5 only at the moment of the
fourth locator use (index 3), modelling a re-render between steps. -/
def ulPagesLate : Nat → PageState :=
  fun n => if n = 2 then [(Sel.css "ul", [5])] else []

/-- A page history in which `ul` matches element 5 at every moment. -/
def ulPagesAlways : Nat → PageState :=
  fun _ => [(Sel.css "ul", [5])]

/-- C7, witness: verify_asset_manager.py's third locator use (the
`page.locator('ul').wait_for(...)` step, index 2 of its selector uses)
observes the same resolution under two page histories that agree at moment 2
but differ everywhere else. -/
theorem c7_resolution_witness :
    verify_asset_manager ∈ allScripts none ∧
      2 < (locUses verify_asset_manager).length ∧
      ulPagesLate 2 = ulPagesAlways 2 ∧
      (observedMatches ulPagesLate (locUses verify_asset_manager)).getD 2 [] =
        (observedMatches ulPagesAlways (locUses verify_asset_manager)).getD 2 [] :=
  ⟨by decide, by decide, by decide,
   c7_resolution_at_moment_of_use none verify_asset_manager (by decide)
     ulPagesLate ulPagesAlways 2 (by decide) (by decide)⟩

/-- C8, counterexample: the claim says artifact filenames are derived from
the scenario name plus a step index plus the label.  The scripts hard-code
their screenshot paths: verify_changes.py and verify_asset_manager.py are
different scenarios yet both write the very same artifact key
`jules-scratch/verification/verification.png`, so the filename cannot be
derived from the scenario name (or any per-scenario step index). -/
theorem c8_filename_not_keyed_by_scenario :
    "jules-scratch/verification/verification.png" ∈
        capturePaths (runScript verify_changes none) ∧
      "jules-scratch/verification/verification.png" ∈
        capturePaths (runScript verify_asset_manager none) ∧
      verify_changes.name ≠ verify_asset_manager.name := by
  decide

/-- C8, amended: within any single run of any of the nine scripts, no two
evidence artifacts have colliding filenames — but only because each script
hard-codes pairwise-distinct constant paths, not because names embed the
scenario name and a step index (across scenarios the same filename is
reused, as the counterexample shows). -/
theorem c8_no_collision_within_one_run (shareUrl : Option String) (s : Script)
    (hs : s ∈ allScripts shareUrl) (failAt : Option Nat) :
    (capturePaths (runScript s failAt)).Nodup := by
  apply capturePaths_nodup_of_fullOps
  simp only [allScripts, List.mem_cons, List.not_mem_nil, or_false] at hs
  rcases hs with rfl | rfl | rfl | rfl | rfl | rfl | rfl | rfl | rfl
  · decide
  · decide
  · decide
  · decide
  · decide
  · decide
  · decide
  · show (["jules-scratch/verification/animation_player.png",
      "jules-scratch/verification/share_page.png"] : List String).Nodup
    decide
  · decide

/-- C8, witness: a full run of verify_typing_animation.py (which captures
four artifacts) has pairwise-distinct capture paths. -/
theorem c8_no_collision_witness :
    verify_typing_animation ∈ allScripts none ∧
      (capturePaths (runScript verify_typing_animation none)).Nodup :=
  ⟨by decide,
   c8_no_collision_within_one_run none verify_typing_animation (by decide) none⟩

/-- Two successive runs of one scenario.  Each script launches a fresh
browser session per run and keeps no state between runs, so both runs are the
same pure evaluation against the same environment (an unchanged application
with fixed seed state is the same `failAt` behaviour). -/
def runTwice (s : Script) (failAt : Option Nat) : Outcome × Outcome :=
  (runScript s failAt, runScript s failAt)

/-- C9: running any of the nine scripts twice against an unchanged
application with fixed seed state yields two runs with identical outcome and
an identical ordered list of evidence artifact keys (artifact bytes are not
modelled and may differ). -/
theorem c9_two_runs_identical (shareUrl : Option String) (s : Script)
    (hs : s ∈ allScripts shareUrl) (failAt : Option Nat) :
    (runTwice s failAt).1.status = (runTwice s failAt).2.status ∧
      capturePaths (runTwice s failAt).1 = capturePaths (runTwice s failAt).2 :=
  ⟨rfl, rfl⟩

/-- C9, witness: the two runs of verify_typing_animation.py agree on outcome
and evidence keys. -/
theorem c9_two_runs_witness :
    verify_typing_animation ∈ allScripts none ∧
      ((runTwice verify_typing_animation none).1.status =
          (runTwice verify_typing_animation none).2.status ∧
        capturePaths (runTwice verify_typing_animation none).1 =
          capturePaths (runTwice verify_typing_animation none).2) :=
  ⟨by decide, c9_two_runs_identical none verify_typing_animation (by decide) none⟩

/-- C10: in verify_share_flow.py the value read from the Share button's
`data-share-url` attribute is the very next navigation's argument, with no
presence check in between: operation 8 of the body is the `get_attribute`
call and operation 9 is `page.goto(share_url)` applied to whatever value came
back — in particular, when `get_attribute` returns no value (attribute
absent), the navigation receives `none` (Python `None`). -/
theorem c10_share_url_flows_unchecked (attr : Option String) :
    (verify_share_flow attr).body[8]? =
        some (Op.getAttr (Sel.css "button:has-text(\"Share\")") "data-share-url") ∧
      (verify_share_flow attr).body[9]? = some (Op.gotoOpt attr) ∧
      (shareFlowTail attr)[0]? = some (Op.gotoOpt attr) ∧
      (shareFlowTail none)[0]? = some (Op.gotoOpt none) :=
  ⟨rfl, rfl, rfl, rfl⟩
